import Mathlib

/-
Verification of the gesture classification and stability engine of the
Real-Time-Sign-Language-Translator repository, embedded from
src/lib/real-time-gesture-detector.ts (class RealTimeGestureDetector) and,
for the alternate finger-extension formulation, from
src/lib/mediapipe-detector.ts (MediaPipeGestureDetector.isFingerExtended).

Modelling conventions:
- Landmark coordinates are rationals.  The source compares Euclidean
  distances (square roots of sums of squares) against each other or against
  nonnegative decimal thresholds; every such comparison is embedded as the
  equivalent comparison of squared distances (squaring both sides), which is
  faithful because the square root is strictly monotone on nonnegative reals
  and both sides of every source comparison are nonnegative.  The section on
  real-valued geometry below states the square-root forms over the reals and
  proves the bridge for the finger-extension predicate.
- Gesture symbols are Lean String values; the source type Gesture is a union
  of string literals.
- Timestamps (Date.now values) are integers.
- The per-frame callback processes every reported hand within one frame, so
  all hands of a frame share one wall-clock reading.
-/

namespace SignEngine

/-- Landmark is a 3D point of the hand skeleton (interface HandLandmark). -/
structure Landmark where
  x : ℚ
  y : ℚ
  z : ℚ
deriving DecidableEq

/-- Squared 3D Euclidean distance between two landmarks.  The source computes
Math.sqrt of this quantity; comparisons of those square roots are embedded as
comparisons of these squares. -/
def dist2 (a b : Landmark) : ℚ :=
  (a.x - b.x) ^ 2 + (a.y - b.y) ^ 2 + (a.z - b.z) ^ 2

/-- Squared 2D (x,y only) Euclidean distance, used by the predicates that the
source computes without the z coordinate. -/
def dist2xy (a b : Landmark) : ℚ :=
  (a.x - b.x) ^ 2 + (a.y - b.y) ^ 2

/-- Landmark access: the source indexes the landmark array directly; the hand
skeleton invariant guarantees 21 entries, so the default is never reached on
well-formed input. -/
def nth (l : List Landmark) (i : Nat) : Landmark := l.getD i ⟨0, 0, 0⟩

/-- RealTimeGestureDetector.isFingerExtended: tipToBase > tipToMcp, with both
square roots squared away. -/
def isFingerExtended (tip base mcp : Landmark) : Bool :=
  decide (dist2 tip base > dist2 tip mcp)

/-- RealTimeGestureDetector.isCurvedGesture: consecutive 2D gaps between the
four non-thumb fingertips (indices 8, 12, 16, 20) are all below 0.1; the
entry at list position 0 passes vacuously in the source.  0.1 squared is
1/100. -/
def isCurvedGesture (landmarks : List Landmark) : Bool :=
  decide (dist2xy (nth landmarks 12) (nth landmarks 8) < 1/100) &&
  decide (dist2xy (nth landmarks 16) (nth landmarks 12) < 1/100) &&
  decide (dist2xy (nth landmarks 20) (nth landmarks 16) < 1/100)

/-- RealTimeGestureDetector.isThumbIndexTouching: 3D distance below 0.05;
0.05 squared is 1/400. -/
def isThumbIndexTouching (thumbTip indexTip : Landmark) : Bool :=
  decide (dist2 thumbTip indexTip < 1/400)

/-- RealTimeGestureDetector.isThumbBetweenFingers: thumb tip within 2D
distance 0.1 of both the index base (5) and the middle base (9). -/
def isThumbBetweenFingers (landmarks : List Landmark) : Bool :=
  decide (dist2xy (nth landmarks 4) (nth landmarks 5) < 1/100) &&
  decide (dist2xy (nth landmarks 4) (nth landmarks 9) < 1/100)

/-- RealTimeGestureDetector.isThumbIndexCircle: 2D distance strictly between
0.03 and 0.08; squared bounds 9/10000 and 64/10000. -/
def isThumbIndexCircle (thumbTip indexTip : Landmark) : Bool :=
  decide (dist2xy thumbTip indexTip < 64/10000) &&
  decide (dist2xy thumbTip indexTip > 9/10000)

/-- RealTimeGestureDetector.isIndexMiddleCrossed: 2D distance between index
tip (8) and middle tip (12) below 0.05. -/
def isIndexMiddleCrossed (landmarks : List Landmark) : Bool :=
  decide (dist2xy (nth landmarks 8) (nth landmarks 12) < 1/400)

/-- RealTimeGestureDetector.isWaveGesture: horizontal offset between index
tip (8) and wrist (0) exceeds 0.1 in absolute value (no square root in the
source here). -/
def isWaveGesture (landmarks : List Landmark) : Bool :=
  decide (|(nth landmarks 8).x - (nth landmarks 0).x| > 1/10)

/-- RealTimeGestureDetector.isThumbsUp: thumb extended and index bent. -/
def isThumbsUp (landmarks : List Landmark) : Bool :=
  isFingerExtended (nth landmarks 4) (nth landmarks 1) (nth landmarks 2) &&
  !isFingerExtended (nth landmarks 8) (nth landmarks 5) (nth landmarks 6)

/-- RealTimeGestureDetector.isThumbsDown: thumb tip below thumb base. -/
def isThumbsDown (landmarks : List Landmark) : Bool :=
  decide ((nth landmarks 4).y > (nth landmarks 1).y)

/-- RealTimeGestureDetector.isStopGesture: the four non-thumb fingers all
extended (tips 8, 12, 16, 20 against bases 5+4i and joints 6+4i). -/
def isStopGesture (landmarks : List Landmark) : Bool :=
  isFingerExtended (nth landmarks 8) (nth landmarks 5) (nth landmarks 6) &&
  isFingerExtended (nth landmarks 12) (nth landmarks 9) (nth landmarks 10) &&
  isFingerExtended (nth landmarks 16) (nth landmarks 13) (nth landmarks 14) &&
  isFingerExtended (nth landmarks 20) (nth landmarks 17) (nth landmarks 18)

/-- RealTimeGestureDetector.isPointingGesture: index extended and middle
bent. -/
def isPointingGesture (landmarks : List Landmark) : Bool :=
  isFingerExtended (nth landmarks 8) (nth landmarks 5) (nth landmarks 6) &&
  !isFingerExtended (nth landmarks 12) (nth landmarks 9) (nth landmarks 10)

/-- RealTimeGestureDetector.detectASLLetter: the ordered first-match rule
chain, translated branch for branch in source order. -/
def detectASLLetter (landmarks : List Landmark) : String :=
  let thumbTip := nth landmarks 4
  let indexTip := nth landmarks 8
  let thumbBase := nth landmarks 1
  let indexBase := nth landmarks 5
  let middleBase := nth landmarks 9
  let ringBase := nth landmarks 13
  let pinkyBase := nth landmarks 17
  let thumbExtended := isFingerExtended thumbTip thumbBase (nth landmarks 2)
  let indexExtended := isFingerExtended indexTip indexBase (nth landmarks 6)
  let middleExtended := isFingerExtended (nth landmarks 12) middleBase (nth landmarks 10)
  let ringExtended := isFingerExtended (nth landmarks 16) ringBase (nth landmarks 14)
  let pinkyExtended := isFingerExtended (nth landmarks 20) pinkyBase (nth landmarks 18)
  if indexExtended && !middleExtended && !ringExtended && !pinkyExtended && !thumbExtended then "1"
  else if indexExtended && middleExtended && !ringExtended && !pinkyExtended && !thumbExtended then "2"
  else if indexExtended && middleExtended && ringExtended && !pinkyExtended && !thumbExtended then "3"
  else if indexExtended && middleExtended && ringExtended && pinkyExtended && !thumbExtended then "4"
  else if indexExtended && middleExtended && ringExtended && pinkyExtended && thumbExtended then "5"
  else if indexExtended && middleExtended && ringExtended && pinkyExtended && !thumbExtended then "6"
  else if indexExtended && middleExtended && ringExtended && pinkyExtended && thumbExtended then "7"
  else if indexExtended && middleExtended && ringExtended && pinkyExtended && thumbExtended then "8"
  else if indexExtended && middleExtended && ringExtended && pinkyExtended && thumbExtended then "9"
  else if indexExtended && middleExtended && ringExtended && pinkyExtended && thumbExtended then "0"
  else if !indexExtended && !middleExtended && !ringExtended && !pinkyExtended && thumbExtended then "a"
  else if indexExtended && middleExtended && ringExtended && pinkyExtended && !thumbExtended then "b"
  else if isCurvedGesture landmarks then "c"
  else if indexExtended && middleExtended && !ringExtended && !pinkyExtended && !thumbExtended then "d"
  else if !indexExtended && !middleExtended && !ringExtended && !pinkyExtended && !thumbExtended then "e"
  else if isThumbIndexTouching thumbTip indexTip then "f"
  else if indexExtended && !middleExtended && !ringExtended && !pinkyExtended && !thumbExtended then "g"
  else if indexExtended && middleExtended && !ringExtended && !pinkyExtended && !thumbExtended then "h"
  else if !indexExtended && !middleExtended && !ringExtended && pinkyExtended && !thumbExtended then "i"
  else if !indexExtended && !middleExtended && !ringExtended && pinkyExtended && !thumbExtended then "j"
  else if indexExtended && middleExtended && !ringExtended && !pinkyExtended && !thumbExtended then "k"
  else if indexExtended && !middleExtended && !ringExtended && !pinkyExtended && thumbExtended then "l"
  else if isThumbBetweenFingers landmarks then "m"
  else if isThumbBetweenFingers landmarks then "n"
  else if isThumbIndexCircle thumbTip indexTip then "o"
  else if indexExtended && !middleExtended && !ringExtended && !pinkyExtended && !thumbExtended then "p"
  else if !indexExtended && !middleExtended && !ringExtended && pinkyExtended && thumbExtended then "q"
  else if isIndexMiddleCrossed landmarks then "r"
  else if !indexExtended && !middleExtended && !ringExtended && !pinkyExtended && !thumbExtended then "s"
  else if isThumbBetweenFingers landmarks then "t"
  else if indexExtended && middleExtended && !ringExtended && !pinkyExtended && !thumbExtended then "u"
  else if indexExtended && middleExtended && !ringExtended && !pinkyExtended && !thumbExtended then "v"
  else if indexExtended && middleExtended && ringExtended && !pinkyExtended && !thumbExtended then "w"
  else if !indexExtended && !middleExtended && !ringExtended && !pinkyExtended && !thumbExtended then "x"
  else if !indexExtended && !middleExtended && !ringExtended && pinkyExtended && thumbExtended then "y"
  else if isIndexMiddleCrossed landmarks then "z"
  else "idle"

/-- RealTimeGestureDetector.detectCommonGestures: common gesture chain. -/
def detectCommonGestures (landmarks : List Landmark) : String :=
  if isWaveGesture landmarks then "hello"
  else if isThumbsUp landmarks then "thanks"
  else if isThumbsDown landmarks then "no"
  else if isStopGesture landmarks then "wait"
  else if isPointingGesture landmarks then "help"
  else "idle"

/-- RealTimeGestureDetector.classifyGesture: ASL letters first, then common
gestures.  The handedness label is received but unused, as in the source. -/
def classifyGesture (landmarks : List Landmark) (handedness : String) : String :=
  let aslLetter := detectASLLetter landmarks
  if aslLetter ≠ "idle" then aslLetter
  else
    let _unused := handedness
    detectCommonGestures landmarks

/-- Configuration fields of RealTimeGestureDetector (confidenceThreshold,
stabilityThreshold, gestureCooldown). -/
structure Config where
  confidenceThreshold : ℚ
  stabilityThreshold : Nat
  gestureCooldown : Int
deriving DecidableEq

/-- Default field values: 0.7, 3, 1000. -/
def defaultConfig : Config :=
  { confidenceThreshold := 7/10, stabilityThreshold := 3, gestureCooldown := 1000 }

/-- Mutable per-instance engine state: gestureHistory, lastStableGesture,
lastGestureTime. -/
structure EngineState where
  gestureHistory : List String
  lastStableGesture : String
  lastGestureTime : Int
deriving DecidableEq

/-- Initial field values: empty history, idle, time 0. -/
def initialState : EngineState :=
  { gestureHistory := [], lastStableGesture := "idle", lastGestureTime := 0 }

/-- Emitted record (interface GesturePrediction). -/
structure GesturePrediction where
  gesture : String
  confidence : ℚ
  text : String
  isStable : Bool
deriving DecidableEq

/-- One tracked hand as delivered by the tracker callback: landmark list,
handedness label, handedness score. -/
structure HandInput where
  landmarks : List Landmark
  label : String
  score : ℚ

/-- Static gestureToText record.  The source record is total on the Gesture
union type; strings outside the vocabulary fall to the empty string. -/
def gestureToText (g : String) : String :=
  match g with
  | "idle" => "" | "hello" => "Hello" | "thanks" => "Thank you" | "help" => "Help"
  | "wait" => "Wait" | "repeat" => "Repeat" | "yes" => "Yes" | "no" => "No"
  | "a" => "A" | "b" => "B" | "c" => "C" | "d" => "D" | "e" => "E" | "f" => "F"
  | "g" => "G" | "h" => "H" | "i" => "I" | "j" => "J" | "k" => "K" | "l" => "L"
  | "m" => "M" | "n" => "N" | "o" => "O" | "p" => "P" | "q" => "Q" | "r" => "R"
  | "s" => "S" | "t" => "T" | "u" => "U" | "v" => "V" | "w" => "W" | "x" => "X"
  | "y" => "Y" | "z" => "Z" | "0" => "0" | "1" => "1" | "2" => "2" | "3" => "3"
  | "4" => "4" | "5" => "5" | "6" => "6" | "7" => "7" | "8" => "8" | "9" => "9"
  | _ => ""

/-- JavaScript arr.slice(-n): for n = 0 the whole array, otherwise the last
min(n, length) entries in order. -/
def jsSliceLast (l : List String) (n : Nat) : List String :=
  if n = 0 then l else l.drop (l.length - n)

/-- History push from updateGestureHistory: append, then shift the oldest
entry off when the length exceeds 5. -/
def pushHistory (history : List String) (gesture : String) : List String :=
  let h := history ++ [gesture]
  if 5 < h.length then h.tail else h

/-- RealTimeGestureDetector.isGestureStable over an explicit history and
threshold. -/
def isGestureStable (stabilityThreshold : Nat) (history : List String)
    (gesture : String) : Bool :=
  if history.length < stabilityThreshold then false
  else (jsSliceLast history stabilityThreshold).all (fun g => g == gesture)

/-- RealTimeGestureDetector.calculateConfidence over an explicit history. -/
def calculateConfidence (history : List String) (gesture : String) : ℚ :=
  if history.length = 0 then 0
  else
    let recent := jsSliceLast history 5
    ((recent.filter (fun g => g == gesture)).length : ℚ) / (recent.length : ℚ)

/-- RealTimeGestureDetector.resetToIdle: clear history, set idle; the last
gesture time is untouched. -/
def resetToIdle (s : EngineState) : EngineState :=
  { s with gestureHistory := [], lastStableGesture := "idle" }

/-- RealTimeGestureDetector.updateGestureHistory as a state transition
returning the possible emission: push into history, compute stability, apply
the cooldown early return, then emit when the symbol is stable and differs
from the last stable gesture. -/
def updateGestureHistory (cfg : Config) (s : EngineState) (gesture : String)
    (now : Int) : EngineState × Option GesturePrediction :=
  let hist := pushHistory s.gestureHistory gesture
  let isStable := isGestureStable cfg.stabilityThreshold hist gesture
  if now - s.lastGestureTime < cfg.gestureCooldown ∧ isStable = false then
    ({ s with gestureHistory := hist }, none)
  else if isStable = true ∧ gesture ≠ s.lastStableGesture then
    ({ gestureHistory := hist, lastStableGesture := gesture, lastGestureTime := now },
      some { gesture := gesture, confidence := calculateConfidence hist gesture,
             text := gestureToText gesture, isStable := true })
  else ({ s with gestureHistory := hist }, none)

/-- Loop body of processHandResults: hands below the confidence threshold are
skipped; each accepted hand is classified and run through
updateGestureHistory; emissions are collected in callback order. -/
def processHands (cfg : Config) (s : EngineState) (hands : List HandInput)
    (now : Int) : EngineState × List GesturePrediction :=
  match hands with
  | [] => (s, [])
  | h :: rest =>
    if h.score < cfg.confidenceThreshold then processHands cfg s rest now
    else
      let g := classifyGesture h.landmarks h.label
      let r := updateGestureHistory cfg s g now
      let r2 := processHands cfg r.1 rest now
      (r2.1, r.2.toList ++ r2.2)

/-- RealTimeGestureDetector.processHandResults: an empty hand list resets to
idle with no emission; otherwise every reported hand is processed. -/
def processHandResults (cfg : Config) (s : EngineState) (hands : List HandInput)
    (now : Int) : EngineState × List GesturePrediction :=
  if hands.isEmpty then (resetToIdle s, []) else processHands cfg s hands now

/-- Spec-side accessor: the n most recent entries of a buffer, most recent
last. -/
def lastN (l : List String) (n : Nat) : List String := l.drop (l.length - n)

/-- When the freshly pushed symbol is not stable, the frame only records the
push: no emission and no change to the stable symbol or the emit time. -/
theorem update_of_not_stable (cfg : Config) (s : EngineState) (gesture : String)
    (now : Int)
    (h : isGestureStable cfg.stabilityThreshold (pushHistory s.gestureHistory gesture) gesture = false) :
    updateGestureHistory cfg s gesture now =
      ({ s with gestureHistory := pushHistory s.gestureHistory gesture }, none) := by
  unfold updateGestureHistory
  simp only [h]
  by_cases hc : now - s.lastGestureTime < cfg.gestureCooldown
  · simp [hc]
  · simp [hc]

/-- When the pushed symbol is stable and differs from the last stable symbol,
the frame emits and commits the new stable symbol and emit time. -/
theorem update_of_stable_new (cfg : Config) (s : EngineState) (gesture : String)
    (now : Int)
    (h : isGestureStable cfg.stabilityThreshold (pushHistory s.gestureHistory gesture) gesture = true)
    (hne : gesture ≠ s.lastStableGesture) :
    updateGestureHistory cfg s gesture now =
      ({ gestureHistory := pushHistory s.gestureHistory gesture,
         lastStableGesture := gesture, lastGestureTime := now },
        some { gesture := gesture,
               confidence := calculateConfidence (pushHistory s.gestureHistory gesture) gesture,
               text := gestureToText gesture, isStable := true }) := by
  unfold updateGestureHistory
  simp [h, hne]

/-- When the pushed symbol is stable but equals the last stable symbol, the
frame only records the push. -/
theorem update_of_stable_same (cfg : Config) (s : EngineState) (gesture : String)
    (now : Int)
    (h : isGestureStable cfg.stabilityThreshold (pushHistory s.gestureHistory gesture) gesture = true)
    (heq : gesture = s.lastStableGesture) :
    updateGestureHistory cfg s gesture now =
      ({ s with gestureHistory := pushHistory s.gestureHistory gesture }, none) := by
  unfold updateGestureHistory
  simp [h, heq]

/-- A frame whose single hand passes the confidence threshold reduces to one
updateGestureHistory step. -/
theorem processHandResults_one (cfg : Config) (s : EngineState) (h : HandInput)
    (now : Int) (hq : ¬ h.score < cfg.confidenceThreshold) :
    processHandResults cfg s [h] now =
      ((updateGestureHistory cfg s (classifyGesture h.landmarks h.label) now).1,
       (updateGestureHistory cfg s (classifyGesture h.landmarks h.label) now).2.toList) := by
  simp [processHandResults, processHands, hq]

/-- A nonempty frame whose hands all fall below the confidence threshold
leaves the engine state untouched and emits nothing. -/
theorem processHands_all_skipped (cfg : Config) (s : EngineState)
    (hands : List HandInput) (now : Int)
    (hall : ∀ h ∈ hands, h.score < cfg.confidenceThreshold) :
    processHands cfg s hands now = (s, []) := by
  induction hands with
  | nil => rfl
  | cons h rest ih =>
    have hh : h.score < cfg.confidenceThreshold := hall h (by simp)
    have hr : ∀ x ∈ rest, x.score < cfg.confidenceThreshold := by
      intro x hx
      exact hall x (by simp [hx])
    simp [processHands, hh, ih hr]

/-- Each qualifying hand contributes at most one emission to the frame. -/
theorem processHands_length_le (cfg : Config) (hands : List HandInput)
    (now : Int) :
    ∀ s : EngineState, (processHands cfg s hands now).2.length ≤
      hands.countP (fun h => !decide (h.score < cfg.confidenceThreshold)) := by
  induction hands with
  | nil => intro s; simp [processHands]
  | cons h rest ih =>
    intro s
    by_cases hq : h.score < cfg.confidenceThreshold
    · simpa [processHands, hq, List.countP_cons] using ih s
    · have hone : (updateGestureHistory cfg s (classifyGesture h.landmarks h.label) now).2.toList.length ≤ 1 := by
        cases (updateGestureHistory cfg s (classifyGesture h.landmarks h.label) now).2 <;> simp
      have hrec := ih (updateGestureHistory cfg s (classifyGesture h.landmarks h.label) now).1
      have hcnt : (h :: rest).countP (fun x => !decide (x.score < cfg.confidenceThreshold))
          = rest.countP (fun x => !decide (x.score < cfg.confidenceThreshold)) + 1 := by
        simp [List.countP_cons, hq]
      rw [hcnt]
      simp only [processHands, if_neg hq, List.length_append]
      omega

/-- Concrete engine state with two recorded "a" classifications, used as a
sample state in several evaluations. -/
def stateAA : EngineState :=
  { gestureHistory := ["a", "a"], lastStableGesture := "idle", lastGestureTime := 0 }

/-- C1: for every engine state and newly classified symbol (with the
configured stability threshold at least 1, the documented contract of the
configuration surface), isGestureStable is true iff the history holds at
least stabilityThreshold entries and its most recent stabilityThreshold
entries all equal the new symbol; in particular a shorter history is never
stable. -/
theorem isGestureStable_iff (st : Nat) (hist : List String) (gesture : String)
    (hst : 1 ≤ st) :
    (isGestureStable st hist gesture = true ↔
      (st ≤ hist.length ∧ ∀ g ∈ lastN hist st, g = gesture))
    ∧ (hist.length < st → isGestureStable st hist gesture = false) := by
  have hne : ¬ st = 0 := by omega
  constructor
  · by_cases hlt : hist.length < st
    · simp only [isGestureStable, if_pos hlt, Bool.false_eq_true, false_iff]
      intro hcon
      exact absurd hcon.1 (by omega)
    · simp only [isGestureStable, if_neg hlt, jsSliceLast, if_neg hne, lastN,
        List.all_eq_true, beq_iff_eq]
      constructor
      · intro hall
        exact ⟨by omega, hall⟩
      · intro hc
        exact hc.2
  · intro hlt
    simp [isGestureStable, hlt]

/-- Witness for C1 at the concrete history [b, a, a, a] with threshold 3 and
symbol a. -/
theorem isGestureStable_iff_witness :
    (isGestureStable 3 ["b", "a", "a", "a"] "a" = true ↔
      (3 ≤ (["b", "a", "a", "a"] : List String).length ∧
        ∀ g ∈ lastN ["b", "a", "a", "a"] 3, g = "a"))
    ∧ ((["b", "a", "a", "a"] : List String).length < 3 →
        isGestureStable 3 ["b", "a", "a", "a"] "a" = false) :=
  isGestureStable_iff 3 ["b", "a", "a", "a"] "a" (by decide)

/-- C2: a frame with a qualifying hand emits iff the freshly pushed symbol is
stable and differs from lastStableGesture, and an emission commits the new
stable symbol and the emit time; a stable symbol equal to lastStableGesture
is therefore never re-emitted. -/
theorem emission_iff (cfg : Config) (s : EngineState) (gesture : String)
    (now : Int) :
    ((updateGestureHistory cfg s gesture now).2.isSome = true ↔
      (isGestureStable cfg.stabilityThreshold (pushHistory s.gestureHistory gesture) gesture = true ∧
        gesture ≠ s.lastStableGesture))
    ∧ ((updateGestureHistory cfg s gesture now).2.isSome = true →
        (updateGestureHistory cfg s gesture now).1.lastStableGesture = gesture ∧
        (updateGestureHistory cfg s gesture now).1.lastGestureTime = now) := by
  by_cases hst : isGestureStable cfg.stabilityThreshold (pushHistory s.gestureHistory gesture) gesture = true
  · by_cases heq : gesture = s.lastStableGesture
    · rw [update_of_stable_same cfg s gesture now hst heq]
      simp [hst, heq]
    · rw [update_of_stable_new cfg s gesture now hst heq]
      simp [hst, heq]
  · have hf : isGestureStable cfg.stabilityThreshold (pushHistory s.gestureHistory gesture) gesture = false := by
      cases hb : isGestureStable cfg.stabilityThreshold (pushHistory s.gestureHistory gesture) gesture
      · rfl
      · exact absurd hb hst
    rw [update_of_not_stable cfg s gesture now hf]
    simp [hf]

/-- Witness for C2 at a concrete emitting frame: state with history [a, a],
classified symbol a, time 0. -/
theorem emission_iff_witness :
    ((updateGestureHistory defaultConfig stateAA "a" 0).2.isSome = true ↔
      (isGestureStable defaultConfig.stabilityThreshold
          (pushHistory stateAA.gestureHistory "a") "a" = true ∧
        "a" ≠ stateAA.lastStableGesture))
    ∧ ((updateGestureHistory defaultConfig stateAA "a" 0).2.isSome = true →
        (updateGestureHistory defaultConfig stateAA "a" 0).1.lastStableGesture = "a" ∧
        (updateGestureHistory defaultConfig stateAA "a" 0).1.lastGestureTime = 0) :=
  emission_iff defaultConfig stateAA "a" 0

/-- C3: the cooldown early return fires exactly on an unstable symbol inside
the cooldown window, and only withholds those frames: a stable symbol that
differs from lastStableGesture is emitted even inside the window. -/
theorem cooldown_gate (cfg : Config) (s : EngineState) (gesture : String)
    (now : Int) :
    ((now - s.lastGestureTime < cfg.gestureCooldown ∧
        isGestureStable cfg.stabilityThreshold (pushHistory s.gestureHistory gesture) gesture = false) →
      (updateGestureHistory cfg s gesture now).2 = none)
    ∧ ((isGestureStable cfg.stabilityThreshold (pushHistory s.gestureHistory gesture) gesture = true ∧
        gesture ≠ s.lastStableGesture ∧ now - s.lastGestureTime < cfg.gestureCooldown) →
      (updateGestureHistory cfg s gesture now).2.isSome = true) := by
  constructor
  · rintro ⟨hcd, hf⟩
    rw [update_of_not_stable cfg s gesture now hf]
  · rintro ⟨hstable, hne, hcd⟩
    rw [update_of_stable_new cfg s gesture now hstable hne]
    rfl

/-- Witness for C3: with lastGestureTime 0 and the default 1000 ms cooldown,
the frame at time 500 is inside the cooldown window, yet the stable new
symbol a is emitted. -/
theorem cooldown_gate_witness :
    (updateGestureHistory defaultConfig stateAA "a" 500).2.isSome = true :=
  (cooldown_gate defaultConfig stateAA "a" 500).2 (by decide)

/-- C7: the history push keeps the capacity-5 invariant, evicts exactly the
oldest entry when pushing onto a full buffer (preserving FIFO order of the
rest), and only appends onto a shorter buffer. -/
theorem pushHistory_spec (hist : List String) (g : String) :
    (hist.length ≤ 5 → (pushHistory hist g).length ≤ 5)
    ∧ (hist.length = 5 → pushHistory hist g = hist.tail ++ [g])
    ∧ (hist.length < 5 → pushHistory hist g = hist ++ [g]) := by
  refine ⟨?_, ?_, ?_⟩
  · intro hle
    unfold pushHistory
    by_cases hc : 5 < (hist ++ [g]).length
    · simp only [if_pos hc]
      cases hist with
      | nil => simp at hc
      | cons x t =>
        simp only [List.cons_append, List.tail_cons, List.length_append,
          List.length_singleton]
        simp at hle
        omega
    · simp only [if_neg hc]
      simp only [List.length_append, List.length_singleton, not_lt] at hc ⊢
      omega
  · intro h5
    unfold pushHistory
    have hc : 5 < (hist ++ [g]).length := by simp [h5]
    simp only [if_pos hc]
    cases hist with
    | nil => simp at h5
    | cons x t => simp
  · intro hlt
    simp only [pushHistory]
    rw [if_neg (show ¬ 5 < (hist ++ [g]).length by
      simp only [List.length_append, List.length_singleton, not_lt]
      omega)]

/-- Witness for C7: pushing onto the full buffer [v, w, x, y, z] evicts v and
keeps length 5. -/
theorem pushHistory_spec_witness :
    (pushHistory ["v", "w", "x", "y", "z"] "u").length ≤ 5
    ∧ pushHistory ["v", "w", "x", "y", "z"] "u" =
        (["v", "w", "x", "y", "z"] : List String).tail ++ ["u"] :=
  ⟨(pushHistory_spec ["v", "w", "x", "y", "z"] "u").1 (by decide),
   (pushHistory_spec ["v", "w", "x", "y", "z"] "u").2.1 (by decide)⟩

/-- Point with real coordinates, for stating the two finger-extension
formulations exactly as written in the two source modules (with the square
roots). -/
structure RPoint where
  x : ℝ
  y : ℝ
  z : ℝ

/-- RealTimeGestureDetector.isFingerExtended over the reals, verbatim:
distance from tip to base exceeds distance from tip to the mid joint. -/
def fingerExtendedTipBase (tip base mid : RPoint) : Prop :=
  Real.sqrt ((tip.x - base.x) ^ 2 + (tip.y - base.y) ^ 2 + (tip.z - base.z) ^ 2) >
  Real.sqrt ((tip.x - mid.x) ^ 2 + (tip.y - mid.y) ^ 2 + (tip.z - mid.z) ^ 2)

/-- MediaPipeGestureDetector.isFingerExtended over the reals, verbatim:
distance from tip to wrist exceeds 1.2 times the distance from the base (MCP)
to the wrist. -/
def fingerExtendedWristRatio (tip base wrist : RPoint) : Prop :=
  Real.sqrt ((tip.x - wrist.x) ^ 2 + (tip.y - wrist.y) ^ 2 + (tip.z - wrist.z) ^ 2) >
  Real.sqrt ((base.x - wrist.x) ^ 2 + (base.y - wrist.y) ^ 2 + (base.z - wrist.z) ^ 2) * 1.2

/-- Cast a rational landmark to real coordinates. -/
def toR (p : Landmark) : RPoint := ⟨(p.x : ℝ), (p.y : ℝ), (p.z : ℝ)⟩

/-- Squared distances are nonnegative. -/
theorem dist2_nonneg (a b : Landmark) : 0 ≤ dist2 a b := by
  unfold dist2
  positivity

/-- Casting a squared distance to the reals gives the squared-difference sum
of the casted points. -/
theorem dist2_cast (a b : Landmark) :
    ((dist2 a b : ℚ) : ℝ) =
      ((toR a).x - (toR b).x) ^ 2 + ((toR a).y - (toR b).y) ^ 2 +
        ((toR a).z - (toR b).z) ^ 2 := by
  unfold dist2 toR
  push_cast
  ring

/-- Bridge justifying the squared-distance embedding: the Boolean predicate
used by the engine agrees with the square-root formulation over the reals. -/
theorem isFingerExtended_bridge (tip base mcp : Landmark) :
    isFingerExtended tip base mcp = true ↔
      fingerExtendedTipBase (toR tip) (toR base) (toR mcp) := by
  unfold isFingerExtended fingerExtendedTipBase
  rw [decide_eq_true_iff, ← dist2_cast, ← dist2_cast, gt_iff_lt, gt_iff_lt,
    Real.sqrt_lt_sqrt_iff (by exact_mod_cast dist2_nonneg tip mcp)]
  exact_mod_cast Iff.rfl

/-- C8: the two finger-extension formulations are not equivalent; at the
configuration tip = mid = wrist = origin, base = (1,0,0), the tip-base
formulation holds while the wrist-ratio formulation fails. -/
theorem formulations_differ :
    ∃ tip base mid wrist : RPoint,
      fingerExtendedTipBase tip base mid ∧ ¬ fingerExtendedWristRatio tip base wrist := by
  refine ⟨⟨0, 0, 0⟩, ⟨1, 0, 0⟩, ⟨0, 0, 0⟩, ⟨0, 0, 0⟩, ?_, ?_⟩
  · unfold fingerExtendedTipBase
    norm_num [Real.sqrt_one, Real.sqrt_zero]
  · unfold fingerExtendedWristRatio
    norm_num [Real.sqrt_one, Real.sqrt_zero]

/-- C10: under first-match evaluation the rules for the digit symbols 6, 7,
8, 9 and 0 repeat the finger-extension patterns of earlier rules (6 repeats
4; 7, 8, 9 and 0 repeat 5), so no landmark input ever classifies to one of
those symbols. -/
theorem digits_unreachable (landmarks : List Landmark) :
    detectASLLetter landmarks ≠ "6" ∧ detectASLLetter landmarks ≠ "7" ∧
    detectASLLetter landmarks ≠ "8" ∧ detectASLLetter landmarks ≠ "9" ∧
    detectASLLetter landmarks ≠ "0" := by
  simp only [detectASLLetter]
  generalize isFingerExtended (nth landmarks 4) (nth landmarks 1) (nth landmarks 2) = tE
  generalize isFingerExtended (nth landmarks 8) (nth landmarks 5) (nth landmarks 6) = iE
  generalize isFingerExtended (nth landmarks 12) (nth landmarks 9) (nth landmarks 10) = mE
  generalize isFingerExtended (nth landmarks 16) (nth landmarks 13) (nth landmarks 14) = rE
  generalize isFingerExtended (nth landmarks 20) (nth landmarks 17) (nth landmarks 18) = pE
  generalize isCurvedGesture landmarks = cG
  generalize isThumbIndexTouching (nth landmarks 4) (nth landmarks 8) = tT
  generalize isThumbBetweenFingers landmarks = tB
  generalize isThumbIndexCircle (nth landmarks 4) (nth landmarks 8) = tC
  generalize isIndexMiddleCrossed landmarks = iC
  revert tE iE mE rE pE cG tT tB tC iC
  decide

/-- Hand input whose handedness score 0.5 falls below the default 0.7
confidence threshold. -/
def lowHand : HandInput := { landmarks := [], label := "Left", score := 1/2 }

/-- Engine state holding one recorded symbol and a non-idle stable symbol. -/
def stateA1 : EngineState :=
  { gestureHistory := ["a"], lastStableGesture := "a", lastGestureTime := 0 }

/-- C4 counterexample: a frame reporting one hand below the confidence
threshold does not reset; the history stays [a] and the stable symbol stays
a, refuting the claim that such frames clear the buffer and set idle. -/
theorem low_confidence_no_reset :
    ¬ ((processHandResults defaultConfig stateA1 [lowHand] 0).1.gestureHistory = [] ∧
        (processHandResults defaultConfig stateA1 [lowHand] 0).1.lastStableGesture = "idle") := by
  have hsc : lowHand.score < defaultConfig.confidenceThreshold := by
    norm_num [lowHand, defaultConfig]
  have hall : ∀ x ∈ [lowHand], x.score < defaultConfig.confidenceThreshold := by
    intro x hx
    simp only [List.mem_singleton] at hx
    subst hx
    exact hsc
  have hres : processHandResults defaultConfig stateA1 [lowHand] 0 = (stateA1, []) := by
    have h0 : processHandResults defaultConfig stateA1 [lowHand] 0
        = processHands defaultConfig stateA1 [lowHand] 0 := rfl
    rw [h0]
    exact processHands_all_skipped defaultConfig stateA1 [lowHand] 0 hall
  rw [hres]
  simp [stateA1]

/-- C4 amended: a frame with zero reported hands resets synchronously (empty
history, idle stable symbol, no emission); a nonempty frame whose hands all
fall below the confidence threshold is skipped entirely: no reset, no state
change, no emission. -/
theorem reset_on_empty_frame (cfg : Config) (s : EngineState)
    (hands : List HandInput) (now : Int) :
    (processHandResults cfg s [] now = (resetToIdle s, []) ∧
      (resetToIdle s).gestureHistory = [] ∧ (resetToIdle s).lastStableGesture = "idle")
    ∧ (hands ≠ [] → (∀ h ∈ hands, h.score < cfg.confidenceThreshold) →
        processHandResults cfg s hands now = (s, [])) := by
  refine ⟨⟨rfl, rfl, rfl⟩, ?_⟩
  intro hne hall
  have h0 : processHandResults cfg s hands now = processHands cfg s hands now := by
    cases hands with
    | nil => exact absurd rfl hne
    | cons a t => rfl
  rw [h0]
  exact processHands_all_skipped cfg s hands now hall

/-- Witness for the amended C4: the below-threshold frame leaves the state
untouched and emits nothing. -/
theorem reset_on_empty_frame_witness :
    processHandResults defaultConfig stateA1 [lowHand] 5 = (stateA1, []) :=
  (reset_on_empty_frame defaultConfig stateA1 [lowHand] 5).2
    (List.cons_ne_nil lowHand [])
    (by
      intro h hh
      simp only [List.mem_singleton] at hh
      subst hh
      norm_num [lowHand, defaultConfig])

/-- The history push never produces an empty buffer. -/
theorem pushHistory_ne_nil (hist : List String) (g : String) :
    pushHistory hist g ≠ [] := by
  show (if 5 < (hist ++ [g]).length then (hist ++ [g]).tail else hist ++ [g]) ≠ []
  split
  · cases hist with
    | nil => simp_all
    | cons x t => simp
  · simp

/-- Evaluation of calculateConfidence on a nonempty history: the quotient
formula, its range, and the saturation case. -/
theorem calculateConfidence_spec (hist : List String) (gesture : String)
    (hne : hist ≠ []) :
    calculateConfidence hist gesture =
      ((lastN hist (min 5 hist.length)).count gesture : ℚ) /
        ((min 5 hist.length : ℕ) : ℚ)
    ∧ 0 ≤ calculateConfidence hist gesture
    ∧ calculateConfidence hist gesture ≤ 1
    ∧ (5 ≤ hist.length → (∀ g ∈ lastN hist 5, g = gesture) →
        calculateConfidence hist gesture = 1) := by
  have hlen : hist.length ≠ 0 := by
    simpa [List.length_eq_zero] using hne
  have hkey : calculateConfidence hist gesture =
      ((hist.drop (hist.length - 5)).count gesture : ℚ) /
        ((hist.drop (hist.length - 5)).length : ℚ) := by
    unfold calculateConfidence jsSliceLast
    rw [if_neg hlen, if_neg (by decide)]
    have hcnt : ((hist.drop (hist.length - 5)).filter (fun x => x == gesture)).length
        = (hist.drop (hist.length - 5)).count gesture := by
      rw [List.count, List.countP_eq_length_filter]
    simp only [hcnt]
  have hlength : (hist.drop (hist.length - 5)).length = min 5 hist.length := by
    rw [List.length_drop]
    omega
  have hlastNmin : lastN hist (min 5 hist.length) = hist.drop (hist.length - 5) := by
    unfold lastN
    congr 1
    omega
  have hpos : 0 < (hist.drop (hist.length - 5)).length := by
    rw [hlength]
    omega
  refine ⟨?_, ?_, ?_, ?_⟩
  · rw [hkey, hlastNmin, hlength]
  · rw [hkey]
    positivity
  · rw [hkey, div_le_one (by exact_mod_cast hpos)]
    exact_mod_cast List.count_le_length gesture (hist.drop (hist.length - 5))
  · intro h5 hall
    have hcl : (hist.drop (hist.length - 5)).count gesture
        = (hist.drop (hist.length - 5)).length := by
      rw [List.count_eq_length]
      intro b hb
      exact (hall b hb).symm
    rw [hkey, hcl]
    exact div_self (by exact_mod_cast hpos.ne')

/-- C5: every emitted confidence equals the count of the emitted symbol among
the last min(5, length) post-push entries divided by min(5, length), lies in
[0, 1], saturates at 1 when at least five matching entries fill the window,
and evaluates to 4/5 on the buffer [a, a, b, a, a] for symbol a. -/
theorem confidence_formula (cfg : Config) (s : EngineState) (gesture : String)
    (now : Int) (p : GesturePrediction)
    (hp : (updateGestureHistory cfg s gesture now).2 = some p) :
    (p.confidence =
      ((lastN (pushHistory s.gestureHistory gesture)
          (min 5 (pushHistory s.gestureHistory gesture).length)).count gesture : ℚ) /
        ((min 5 (pushHistory s.gestureHistory gesture).length : ℕ) : ℚ))
    ∧ 0 ≤ p.confidence ∧ p.confidence ≤ 1
    ∧ (5 ≤ (pushHistory s.gestureHistory gesture).length →
        (∀ g ∈ lastN (pushHistory s.gestureHistory gesture) 5, g = gesture) →
        p.confidence = 1)
    ∧ calculateConfidence ["a", "a", "b", "a", "a"] "a" = 4/5 := by
  have hpc : p.confidence
      = calculateConfidence (pushHistory s.gestureHistory gesture) gesture := by
    by_cases hst : isGestureStable cfg.stabilityThreshold (pushHistory s.gestureHistory gesture) gesture = true
    · by_cases heq : gesture = s.lastStableGesture
      · rw [update_of_stable_same cfg s gesture now hst heq] at hp
        simp at hp
      · rw [update_of_stable_new cfg s gesture now hst heq] at hp
        simp only [Option.some.injEq] at hp
        rw [← hp]
    · have hf : isGestureStable cfg.stabilityThreshold (pushHistory s.gestureHistory gesture) gesture = false := by
        cases hb : isGestureStable cfg.stabilityThreshold (pushHistory s.gestureHistory gesture) gesture
        · rfl
        · exact absurd hb hst
      rw [update_of_not_stable cfg s gesture now hf] at hp
      simp at hp
  have hspec := calculateConfidence_spec (pushHistory s.gestureHistory gesture)
    gesture (pushHistory_ne_nil s.gestureHistory gesture)
  refine ⟨by rw [hpc]; exact hspec.1, by rw [hpc]; exact hspec.2.1,
    by rw [hpc]; exact hspec.2.2.1, by rw [hpc]; exact hspec.2.2.2, ?_⟩
  have haa : (("a" : String) == "a") = true := by decide
  have hba : (("b" : String) == "a") = false := by decide
  norm_num [calculateConfidence, jsSliceLast, List.filter, haa, hba]

/-- Witness for C5 at a concrete emission: buffer [a, a], symbol a, which
emits with confidence 1; the range bounds are instantiated there. -/
theorem confidence_formula_witness :
    0 ≤ calculateConfidence ["a", "a", "a"] "a" ∧
      calculateConfidence ["a", "a", "a"] "a" ≤ 1 :=
  ⟨(confidence_formula defaultConfig stateAA "a" 0
      { gesture := "a", confidence := calculateConfidence ["a", "a", "a"] "a",
        text := "A", isStable := true }
      (by rw [update_of_stable_new defaultConfig stateAA "a" 0 (by decide) (by decide)]; rfl)).2.1,
   (confidence_formula defaultConfig stateAA "a" 0
      { gesture := "a", confidence := calculateConfidence ["a", "a", "a"] "a",
        text := "A", isStable := true }
      (by rw [update_of_stable_new defaultConfig stateAA "a" 0 (by decide) (by decide)]; rfl)).2.2.1⟩

/-- Origin landmark. -/
def origin : Landmark := ⟨0, 0, 0⟩

/-- Concrete hand whose only extended finger is the thumb (thumb tip at
(2,0,0), thumb joint 2 at (1,0,0), every other landmark at the origin): the
pattern of the letter a rule. -/
def handA : List Landmark :=
  [origin, origin, ⟨1, 0, 0⟩, origin, ⟨2, 0, 0⟩, origin, origin, origin, origin, origin,
   origin, origin, origin, origin, origin, origin, origin, origin, origin, origin, origin]

/-- Concrete hand whose only extended finger is the index (index tip at
(2,0,0), index joint 6 at (1,0,0), every other landmark at the origin): the
pattern of the digit 1 rule. -/
def hand1 : List Landmark :=
  [origin, origin, origin, origin, origin, origin, ⟨1, 0, 0⟩, origin, ⟨2, 0, 0⟩, origin,
   origin, origin, origin, origin, origin, origin, origin, origin, origin, origin, origin]

/-- Finger-extension flags of the concrete thumb-only hand. -/
theorem handA_flags :
    isFingerExtended (nth handA 4) (nth handA 1) (nth handA 2) = true ∧
    isFingerExtended (nth handA 8) (nth handA 5) (nth handA 6) = false ∧
    isFingerExtended (nth handA 12) (nth handA 9) (nth handA 10) = false ∧
    isFingerExtended (nth handA 16) (nth handA 13) (nth handA 14) = false ∧
    isFingerExtended (nth handA 20) (nth handA 17) (nth handA 18) = false := by
  refine ⟨?_, ?_, ?_, ?_, ?_⟩ <;>
    simp [isFingerExtended, dist2, handA, nth, origin] <;> norm_num

/-- Finger-extension flags of the concrete index-only hand. -/
theorem hand1_flags :
    isFingerExtended (nth hand1 4) (nth hand1 1) (nth hand1 2) = false ∧
    isFingerExtended (nth hand1 8) (nth hand1 5) (nth hand1 6) = true ∧
    isFingerExtended (nth hand1 12) (nth hand1 9) (nth hand1 10) = false ∧
    isFingerExtended (nth hand1 16) (nth hand1 13) (nth hand1 14) = false ∧
    isFingerExtended (nth hand1 20) (nth hand1 17) (nth hand1 18) = false := by
  refine ⟨?_, ?_, ?_, ?_, ?_⟩ <;>
    simp [isFingerExtended, dist2, hand1, nth, origin] <;> norm_num

/-- The thumb-only hand classifies to the letter a. -/
theorem classify_handA : classifyGesture handA "Right" = "a" := by
  have hf := handA_flags
  have hd : detectASLLetter handA = "a" := by
    simp [detectASLLetter, hf.1, hf.2.1, hf.2.2.1, hf.2.2.2.1, hf.2.2.2.2]
  have hne : ("a" : String) ≠ "idle" := by decide
  simp [classifyGesture, hd, hne]

/-- The index-only hand classifies to the digit 1. -/
theorem classify_hand1 : classifyGesture hand1 "Right" = "1" := by
  have hf := hand1_flags
  have hd : detectASLLetter hand1 = "1" := by
    simp [detectASLLetter, hf.1, hf.2.1, hf.2.2.1, hf.2.2.2.1, hf.2.2.2.2]
  have hne : ("1" : String) ≠ "idle" := by decide
  simp [classifyGesture, hd, hne]

/-- C6 amended: each frame delivers at most one prediction per qualifying
hand (a hand whose score reaches the confidence threshold); a frame with at
most one qualifying hand therefore delivers at most one prediction, but a
frame with several qualifying hands may deliver several. -/
theorem emissions_bounded_by_qualifying (cfg : Config) (s : EngineState)
    (hands : List HandInput) (now : Int) :
    (processHandResults cfg s hands now).2.length ≤
      hands.countP (fun h => !decide (h.score < cfg.confidenceThreshold)) := by
  cases hands with
  | nil => simp [processHandResults]
  | cons a t =>
    have h0 : processHandResults cfg s (a :: t) now = processHands cfg s (a :: t) now := rfl
    rw [h0]
    exact processHands_length_le cfg (a :: t) now s

/-- Configuration with the minimal legal stability threshold 1. -/
def cfgT1 : Config :=
  { confidenceThreshold := 7/10, stabilityThreshold := 1, gestureCooldown := 1000 }

/-- Qualifying hand input carrying the thumb-only landmarks. -/
def handAInput : HandInput := { landmarks := handA, label := "Right", score := 1 }

/-- Qualifying hand input carrying the index-only landmarks. -/
def hand1Input : HandInput := { landmarks := hand1, label := "Right", score := 1 }

/-- C6 counterexample: with the legal configuration stabilityThreshold = 1, a
single frame reporting two qualifying hands (classifying to 1 and to a)
delivers two predictions, refuting the at-most-one-per-frame claim. -/
theorem two_emissions_one_frame :
    ¬ ((processHandResults cfgT1 initialState [hand1Input, handAInput] 0).2.length ≤ 1) := by
  have hq1 : ¬ hand1Input.score < cfgT1.confidenceThreshold := by
    norm_num [hand1Input, cfgT1]
  have hqA : ¬ handAInput.score < cfgT1.confidenceThreshold := by
    norm_num [handAInput, cfgT1]
  have hu1 : updateGestureHistory cfgT1 initialState "1" 0 =
      ({ gestureHistory := ["1"], lastStableGesture := "1", lastGestureTime := 0 },
        some { gesture := "1", confidence := calculateConfidence ["1"] "1",
               text := "1", isStable := true }) := by
    rw [update_of_stable_new cfgT1 initialState "1" 0 (by decide) (by decide)]
    rfl
  have hu2 : updateGestureHistory cfgT1 ⟨["1"], "1", 0⟩ "a" 0 =
      ({ gestureHistory := ["1", "a"], lastStableGesture := "a", lastGestureTime := 0 },
        some { gesture := "a", confidence := calculateConfidence ["1", "a"] "a",
               text := "A", isStable := true }) := by
    rw [update_of_stable_new cfgT1 ⟨["1"], "1", 0⟩ "a" 0 (by decide) (by decide)]
    rfl
  have hc1 : classifyGesture hand1Input.landmarks hand1Input.label = "1" := classify_hand1
  have hcA : classifyGesture handAInput.landmarks handAInput.label = "a" := classify_handA
  have hres : processHandResults cfgT1 initialState [hand1Input, handAInput] 0 =
      (⟨["1", "a"], "a", 0⟩,
        [{ gesture := "1", confidence := calculateConfidence ["1"] "1",
           text := "1", isStable := true },
         { gesture := "a", confidence := calculateConfidence ["1", "a"] "a",
           text := "A", isStable := true }]) := by
    have h0 : processHandResults cfgT1 initialState [hand1Input, handAInput] 0
        = processHands cfgT1 initialState [hand1Input, handAInput] 0 := rfl
    rw [h0]
    simp only [processHands, if_neg hq1, if_neg hqA, hc1, hcA, hu1, hu2,
      Option.toList]
    rfl
  rw [hres]
  simp

/-- C9: with the default configuration, five consecutive frames of one
qualifying hand whose finger-extension flags are all false except the thumb
(so no rule before the letter a can match) produce no emission on frames 1
and 2, exactly one emission of the symbol a (confidence 1, text A) on frame
3, and no emission on frames 4 and 5. -/
theorem scenario_a (h : HandInput) (t1 t2 t3 t4 t5 : Int)
    (hsc : ¬ h.score < defaultConfig.confidenceThreshold)
    (hth : isFingerExtended (nth h.landmarks 4) (nth h.landmarks 1) (nth h.landmarks 2) = true)
    (hin : isFingerExtended (nth h.landmarks 8) (nth h.landmarks 5) (nth h.landmarks 6) = false)
    (hmi : isFingerExtended (nth h.landmarks 12) (nth h.landmarks 9) (nth h.landmarks 10) = false)
    (hri : isFingerExtended (nth h.landmarks 16) (nth h.landmarks 13) (nth h.landmarks 14) = false)
    (hpi : isFingerExtended (nth h.landmarks 20) (nth h.landmarks 17) (nth h.landmarks 18) = false) :
    processHandResults defaultConfig initialState [h] t1 = (⟨["a"], "idle", 0⟩, []) ∧
    processHandResults defaultConfig ⟨["a"], "idle", 0⟩ [h] t2 = (⟨["a", "a"], "idle", 0⟩, []) ∧
    processHandResults defaultConfig ⟨["a", "a"], "idle", 0⟩ [h] t3 =
      (⟨["a", "a", "a"], "a", t3⟩,
        [{ gesture := "a", confidence := 1, text := "A", isStable := true }]) ∧
    processHandResults defaultConfig ⟨["a", "a", "a"], "a", t3⟩ [h] t4 =
      (⟨["a", "a", "a", "a"], "a", t3⟩, []) ∧
    processHandResults defaultConfig ⟨["a", "a", "a", "a"], "a", t3⟩ [h] t5 =
      (⟨["a", "a", "a", "a", "a"], "a", t3⟩, []) := by
  have hg : classifyGesture h.landmarks h.label = "a" := by
    have hd : detectASLLetter h.landmarks = "a" := by
      simp [detectASLLetter, hth, hin, hmi, hri, hpi]
    have hne : ("a" : String) ≠ "idle" := by decide
    simp [classifyGesture, hd, hne]
  refine ⟨?_, ?_, ?_, ?_, ?_⟩
  · rw [processHandResults_one defaultConfig initialState h t1 hsc, hg,
      update_of_not_stable defaultConfig initialState "a" t1 (by decide)]
    rfl
  · rw [processHandResults_one defaultConfig ⟨["a"], "idle", 0⟩ h t2 hsc, hg,
      update_of_not_stable defaultConfig ⟨["a"], "idle", 0⟩ "a" t2 (by decide)]
    rfl
  · rw [processHandResults_one defaultConfig ⟨["a", "a"], "idle", 0⟩ h t3 hsc, hg,
      update_of_stable_new defaultConfig ⟨["a", "a"], "idle", 0⟩ "a" t3 (by decide) (by decide)]
    have haa : (("a" : String) == "a") = true := by decide
    norm_num [pushHistory, calculateConfidence, jsSliceLast, gestureToText,
      List.filter, haa]
  · rw [processHandResults_one defaultConfig ⟨["a", "a", "a"], "a", t3⟩ h t4 hsc, hg,
      update_of_stable_same defaultConfig ⟨["a", "a", "a"], "a", t3⟩ "a" t4
        (show isGestureStable defaultConfig.stabilityThreshold
            (pushHistory ["a", "a", "a"] "a") "a" = true by decide) rfl]
    rfl
  · rw [processHandResults_one defaultConfig ⟨["a", "a", "a", "a"], "a", t3⟩ h t5 hsc, hg,
      update_of_stable_same defaultConfig ⟨["a", "a", "a", "a"], "a", t3⟩ "a" t5
        (show isGestureStable defaultConfig.stabilityThreshold
            (pushHistory ["a", "a", "a", "a"] "a") "a" = true by decide) rfl]
    rfl

/-- Witness for C9 instantiated at the concrete thumb-only qualifying hand:
the third frame of the scenario emits the letter a with confidence 1. -/
theorem scenario_a_witness :
    processHandResults defaultConfig ⟨["a", "a"], "idle", 0⟩ [handAInput] 200 =
      (⟨["a", "a", "a"], "a", 200⟩,
        [{ gesture := "a", confidence := 1, text := "A", isStable := true }]) :=
  (scenario_a handAInput 0 100 200 300 400
    (by norm_num [handAInput, defaultConfig])
    handA_flags.1 handA_flags.2.1 handA_flags.2.2.1
    handA_flags.2.2.2.1 handA_flags.2.2.2.2).2.2.1

end SignEngine
